import Mathlib

/-!
Shallow embedding of `aiosteamist` (src/aiosteamist/__init__.py), a client
library for Steamist steam-shower controllers with two protocol adapters
(HTTP/XML "450" and UDP-discovery "550"), a transition smoother, and a
factory.  Network I/O, XML parsing and the UDP scan are external
collaborators: the embedding takes their results (parsed field maps,
discovered-device lists, a request oracle) as explicit inputs, and records
the requests an operation issues so that frame conditions are provable.
Python exceptions are modelled with `Except` / `Option`.
Monotonic time (`time.monotonic()`, a float) is modelled as `ℚ`.
-/

namespace Aiosteamist

/-- Constant `DEFAULT_REQUEST_TIMEOUT = 10`. -/
def DEFAULT_REQUEST_TIMEOUT : Int := 10

/-- Constant `STATUS_ENDPOINT = "/status.xml"`. -/
def STATUS_ENDPOINT : String := "/status.xml"

/-- Constant `SET_ENDPOINT = "/leds.cgi"`. -/
def SET_ENDPOINT : String := "/leds.cgi"

/-- Constant `STEAM_ON_LED = 6`. -/
def STEAM_ON_LED : Int := 6

/-- Constant `STEAM_OFF_LED = 7`. -/
def STEAM_OFF_LED : Int := 7

/-- Constant `NEVER_TIME = -1200`. -/
def NEVER_TIME : ℚ := -1200

/-- Modelled from the spec: the two model-identifier constants owned by the
external `discovery30303` collaborator (`MODEL_550`, `MODEL_450`); the spec
says only that they are two fixed distinct constants, so we pick concrete
distinct strings. -/
def MODEL_550 : String := "MODEL550"

/-- Modelled from the spec: see `MODEL_550`. -/
def MODEL_450 : String := "MODEL450"

/-- The error kinds of the error taxonomy of the spec (§7).  Python surfaces them
as `NotImplementedError`, `ValueError`, exceptions from `aiohttp`, etc. -/
inductive SteamistError where
  | unsupportedOperation
  | parseError
  | networkError
  | notFound
  deriving DecidableEq, Repr

instance {ε α : Type} [DecidableEq ε] [DecidableEq α] : DecidableEq (Except ε α) :=
  fun a b =>
  match a, b with
  | .ok x, .ok y =>
    if h : x = y then .isTrue (h ▸ rfl) else .isFalse fun hh => h (Except.ok.inj hh)
  | .error x, .error y =>
    if h : x = y then .isTrue (h ▸ rfl) else .isFalse fun hh => h (Except.error.inj hh)
  | .ok _, .error _ => .isFalse fun hh => Except.noConfusion hh
  | .error _, .ok _ => .isFalse fun hh => Except.noConfusion hh

/-- The `SteamistStatus` dataclass.  The Python field `temp` is annotated `int`
but `SteamistModel450.async_get_status` can assign `None` to it (when
neither temperature regex matches), so it is embedded as `Option Int`. -/
structure SteamistStatus where
  temp : Option Int := some 0
  temp_units : String := ""
  minutes_remain : Int := 0
  seconds_remain : Int := 0
  active : Bool := false
  deriving DecidableEq, Repr

/-- The attribute bundle (`additional_data`) that a discovered `Device30303`
exposes; the external discovery collaborator supplies exactly the keys
`temperature`, `temp_unit`, `minutesleft`, `secondsleft`, `profile` (§6). -/
structure Device30303 where
  temperature : Int
  temp_unit : String
  minutesleft : Int
  secondsleft : Int
  profile : Int
  deriving DecidableEq, Repr

/-- Embeds `SteamistStatus.create_from_device_30303`. -/
def SteamistStatus.create_from_device_30303 (steamist : Device30303) : SteamistStatus :=
  { temp := some steamist.temperature
    temp_units := steamist.temp_unit
    minutes_remain := steamist.minutesleft
    seconds_remain := steamist.secondsleft
    active := steamist.profile != 0 }

/-- The mutable instance state set up by `Steamist.__init__` (shared by both
adapter subclasses).  The field name `transiton_state` keeps the spelling used in
the source. -/
structure SteamistState where
  host : String
  timeout : Int := DEFAULT_REQUEST_TIMEOUT
  transition_complete_time : ℚ := NEVER_TIME
  transiton_state : Bool := false
  auth_invalid : Int := 0
  deriving DecidableEq, Repr

/-- Embeds `Steamist.__init__(host, timeout)`. -/
def Steamist.init (host : String) (timeout : Int := DEFAULT_REQUEST_TIMEOUT) :
    SteamistState :=
  { host := host, timeout := timeout }

/-- Embeds `Steamist._async_set_transition(state)` at monotonic time `now`:
`self._transiton_state = state; self._transition_complete_time = now + 10`. -/
def setTransition (s : SteamistState) (state : Bool) (now : ℚ) : SteamistState :=
  { s with transiton_state := state, transition_complete_time := now + 10 }

/-! ### Temperature regexes

`TEMP_REGEX_F = re.compile("([0-9]+)XF")`, `TEMP_REGEX_C = re.compile("([0-9]+)XC")`,
used with `.match` (anchored at the start of the string, trailing characters
allowed).  Because `X` is not a digit, the only candidate split point for the
greedy group `([0-9]+)` is the maximal leading digit run: the pattern matches
iff that run is nonempty and is followed by `X` and then the unit character,
and the captured group is exactly that run. -/

/-- Splits a character list into its maximal leading digit run and the rest. -/
def digitSpan : List Char → List Char × List Char
  | [] => ([], [])
  | c :: cs =>
    if c.isDigit then
      let p := digitSpan cs
      (c :: p.1, p.2)
    else ([], c :: cs)

/-- Value of `int()` applied to a nonempty decimal-digit string (the captured group). -/
def natOfDigits (ds : List Char) : Nat :=
  ds.foldl (fun acc c => acc * 10 + (c.toNat - '0'.toNat)) 0

/-- The Python `int()` builtin on a decimal string: an optional sign followed by a
nonempty digit run, `None` (a raised `ValueError`) otherwise. -/
def intOfDecimal (s : String) : Option Int :=
  match s.data with
  | '-' :: ds =>
    if ds ≠ [] ∧ ds.all Char.isDigit then some (-(natOfDigits ds : Int)) else none
  | ds =>
    if ds ≠ [] ∧ ds.all Char.isDigit then some ((natOfDigits ds : Int)) else none

/-- Embeds `re.compile("([0-9]+)X" + unit).match(s)`: `some n` when the pattern
matches at the start of `s` with captured group parsing to `n`. -/
def reMatchTemp (unit : Char) (s : List Char) : Option Nat :=
  let p := digitSpan s
  match p.1, p.2 with
  | [], _ => none
  | ds, 'X' :: u :: _ => if u = unit then some (natOfDigits ds) else none
  | _, _ => none

/-- Lines 146-154 of `SteamistModel450.async_get_status`: try the Fahrenheit
regex, then the Celsius regex; `units` defaults to `"F"` and `temp` to
`None`. -/
def extractTemp (temp0 : String) : Option Int × String :=
  match reMatchTemp 'F' temp0.data with
  | some n => (some (n : Int), "F")
  | none =>
    match reMatchTemp 'C' temp0.data with
    | some n => (some (n : Int), "C")
    | none => (none, "F")

/-! ### Adapter operations

Each operation is embedded over the inputs its external collaborators
produce: `async_get_status` of the 450 takes the XML field map
`{temp0, time0}` that `xmltodict.parse` extracts from `GET /status.xml`;
`async_get_status` of the 550 takes the device list the 5-second
`AIODiscovery30303.async_scan` produced; the control operations of the 450
take a request oracle standing for `self._websession.request`. -/

/-- The parsed `<response>` element of `status.xml`: fields `temp0` and
`time0` (both strings). -/
structure XmlResponse where
  temp0 : String
  time0 : String
  deriving DecidableEq, Repr

/-- Embeds `SteamistModel450.async_get_status` at monotonic time `now`, given the
parsed XML `response` map.  `int(response["time0"])` raises `ValueError` on a
non-integer string, modelled as `Except.error .parseError`. -/
def SteamistModel450.async_get_status (s : SteamistState) (now : ℚ)
    (response : XmlResponse) : Except SteamistError SteamistStatus :=
  match intOfDecimal response.time0 with
  | none => .error .parseError
  | some minutes_remain =>
    let t := extractTemp response.temp0
    let active : Bool :=
      if s.transition_complete_time > now then s.transiton_state
      else minutes_remain > 0
    .ok { temp := t.1
          temp_units := t.2
          minutes_remain := minutes_remain
          active := active
          seconds_remain := 0 }

/-- Embeds `SteamistModel550.async_get_status`, given the `found_devices` list the
scan produced.  When the list is empty the Python function falls off the end
and implicitly returns `None`, embedded as `none`. -/
def SteamistModel550.async_get_status (found_devices : List Device30303) :
    Option SteamistStatus :=
  if h : found_devices.length > 0 then
    some (SteamistStatus.create_from_device_30303 (found_devices.get ⟨0, h⟩))
  else none

/-- One HTTP round trip of `SteamistModel450._get`: the URL
`http://{host}{endpoint}`, the query parameters, and the per-instance
timeout. -/
structure NetRequest where
  url : String
  params : List (String × Int)
  timeout : Int
  deriving DecidableEq, Repr

/-- The request `async_set_led(id)` issues: `GET {SET_ENDPOINT}?led={id}`. -/
def ledRequest (s : SteamistState) (id : Int) : NetRequest :=
  { url := "http://" ++ s.host ++ SET_ENDPOINT
    params := [("led", id)]
    timeout := s.timeout }

/-- Outcome of a `turn_on`/`turn_off` call: the instance state after the
call, the HTTP requests the call performed (in order), and whether the call
returned normally or propagated an exception. -/
structure TurnResult where
  state : SteamistState
  requests : List NetRequest
  result : Except SteamistError Unit
  deriving Repr

/-- Embeds `Steamist.async_turn_on_steam` (the base implementation, inherited
unchanged by `SteamistModel550`): only calls `_async_set_transition(True)`;
performs no HTTP request. -/
def Steamist.async_turn_on_steam (s : SteamistState) (now : ℚ) : TurnResult :=
  { state := setTransition s true now, requests := [], result := .ok () }

/-- Embeds `Steamist.async_turn_off_steam` (the base implementation, inherited
unchanged by `SteamistModel550`): only calls `_async_set_transition(False)`;
performs no HTTP request. -/
def Steamist.async_turn_off_steam (s : SteamistState) (now : ℚ) : TurnResult :=
  { state := setTransition s false now, requests := [], result := .ok () }

/-- Embeds `Steamist.async_get_status` on the base class:
`raise NotImplementedError("Sub class should implement")`, the
`UnsupportedOperationError` of the spec. -/
def Steamist.async_get_status : Except SteamistError SteamistStatus :=
  .error .unsupportedOperation

/-- Embeds `Steamist.model()` on the base class:
`raise NotImplementedError("Must be overriden by subclass")`. -/
def Steamist.model : Except SteamistError String :=
  .error .unsupportedOperation

/-- Embeds `SteamistModel450.async_turn_on_steam` at monotonic time `now`, with
`net` the HTTP collaborator: awaits `async_set_led(STEAM_ON_LED)` and only
then calls `_async_set_transition(True)`; if the request raises, the
exception propagates and the instance state is left unchanged. -/
def SteamistModel450.async_turn_on_steam
    (net : NetRequest → Except SteamistError String) (s : SteamistState)
    (now : ℚ) : TurnResult :=
  let req := ledRequest s STEAM_ON_LED
  match net req with
  | .error e => { state := s, requests := [req], result := .error e }
  | .ok _ =>
    { state := setTransition s true now, requests := [req], result := .ok () }

/-- Embeds `SteamistModel450.async_turn_off_steam`: as `async_turn_on_steam` with
`STEAM_OFF_LED` and `False`. -/
def SteamistModel450.async_turn_off_steam
    (net : NetRequest → Except SteamistError String) (s : SteamistState)
    (now : ℚ) : TurnResult :=
  let req := ledRequest s STEAM_OFF_LED
  match net req with
  | .error e => { state := s, requests := [req], result := .error e }
  | .ok _ =>
    { state := setTransition s false now, requests := [req], result := .ok () }

/-- Embeds `SteamistModel550.model()`. -/
def SteamistModel550.model : String := MODEL_550

/-- Embeds `SteamistModel450.model()`. -/
def SteamistModel450.model : String := MODEL_450

/-- The two concrete adapter classes, each carrying the instance state its
constructor builds (the 450 additionally stores the `aiohttp` session, which
is pure I/O plumbing and carries no modelled state). -/
inductive SteamistAdapter where
  | model550 (state : SteamistState)
  | model450 (state : SteamistState)
  deriving DecidableEq, Repr

/-- Dynamic dispatch of the static `model()` method on an adapter
instance. -/
def SteamistAdapter.model : SteamistAdapter → String
  | .model550 _ => SteamistModel550.model
  | .model450 _ => SteamistModel450.model

/-- Embeds `Steamist.create_steamist_from(host, model, websession)`: the 550 when
`model == SteamistModel550.model()`, otherwise the 450 (the `websession`
factory is only invoked to hand the 450 its HTTP session). -/
def Steamist.create_steamist_from (host model : String) : SteamistAdapter :=
  if model = SteamistModel550.model then .model550 (Steamist.init host)
  else .model450 (Steamist.init host)

/-- Runs a sequence of timestamped smoother-arming commands
(`_async_set_transition`) against an instance state, oldest first. -/
def applyCommands (s : SteamistState) : List (Bool × ℚ) → SteamistState
  | [] => s
  | cmd :: rest => applyCommands (setTransition s cmd.1 cmd.2) rest

/-- Note that `SteamistModel550` does not override `async_turn_on_steam`; invoking it
on a 550 instance runs the base implementation. -/
def SteamistModel550.async_turn_on_steam : SteamistState → ℚ → TurnResult :=
  Steamist.async_turn_on_steam

/-- Note that `SteamistModel550` does not override `async_turn_off_steam`; invoking it
on a 550 instance runs the base implementation. -/
def SteamistModel550.async_turn_off_steam : SteamistState → ℚ → TurnResult :=
  Steamist.async_turn_off_steam

/-! ## Helper lemmas -/

theorem digitSpan_append_X (d r : List Char) (hd : d.all Char.isDigit) :
    digitSpan (d ++ 'X' :: r) = (d, 'X' :: r) := by
  induction d with
  | nil => simp [digitSpan, show 'X'.isDigit = false from rfl]
  | cons c cs ih =>
    simp only [List.all_cons, Bool.and_eq_true] at hd
    simp [digitSpan, hd.1, ih hd.2]

theorem reMatchTemp_eq (u v : Char) (d r : List Char) (hne : d ≠ [])
    (hd : d.all Char.isDigit) :
    reMatchTemp u (d ++ 'X' :: v :: r) =
      if v = u then some (natOfDigits d) else none := by
  unfold reMatchTemp
  rw [digitSpan_append_X d (v :: r) hd]
  cases d with
  | nil => exact absurd rfl hne
  | cons c cs => rfl

theorem extractTemp_XF (d r : List Char) (hne : d ≠ []) (hd : d.all Char.isDigit) :
    extractTemp ⟨d ++ 'X' :: 'F' :: r⟩ = (some ((natOfDigits d : Int)), "F") := by
  unfold extractTemp
  rw [show (⟨d ++ 'X' :: 'F' :: r⟩ : String).data = d ++ 'X' :: 'F' :: r from rfl,
    reMatchTemp_eq 'F' 'F' d r hne hd]
  simp

theorem extractTemp_XC (d r : List Char) (hne : d ≠ []) (hd : d.all Char.isDigit) :
    extractTemp ⟨d ++ 'X' :: 'C' :: r⟩ = (some ((natOfDigits d : Int)), "C") := by
  unfold extractTemp
  rw [show (⟨d ++ 'X' :: 'C' :: r⟩ : String).data = d ++ 'X' :: 'C' :: r from rfl,
    reMatchTemp_eq 'F' 'C' d r hne hd, reMatchTemp_eq 'C' 'C' d r hne hd]
  simp

theorem applyCommands_append (s : SteamistState) (l : List (Bool × ℚ))
    (c : Bool × ℚ) :
    applyCommands s (l ++ [c]) = setTransition (applyCommands s l) c.1 c.2 := by
  induction l generalizing s with
  | nil => rfl
  | cons x xs ih => simp [applyCommands, ih]

/-! ## Claims -/

/-- C3 (code bug): `SteamistModel550.async_get_status` with zero responding
devices implicitly returns `None` — it does not fail with a NotFoundError as
the claim requires. -/
theorem c3_empty_scan_returns_none :
    SteamistModel550.async_get_status [] = none := rfl

/-- C5: constructing a `SteamistStatus` from discovery attributes maps
`temperature→temp`, `temp_unit→temp_units`, `minutesleft→minutes_remain`,
`secondsleft→seconds_remain`, and sets `active = (profile != 0)`; in
particular `{temperature:105, temp_unit:"F", minutesleft:3, secondsleft:45,
profile:1}` yields `{temp:105, temp_units:"F", minutes_remain:3,
seconds_remain:45, active:true}`. -/
theorem c5_status_from_discovery :
    (∀ dev : Device30303, SteamistStatus.create_from_device_30303 dev =
      { temp := some dev.temperature, temp_units := dev.temp_unit,
        minutes_remain := dev.minutesleft, seconds_remain := dev.secondsleft,
        active := dev.profile != 0 }) ∧
    SteamistStatus.create_from_device_30303
        { temperature := 105, temp_unit := "F", minutesleft := 3,
          secondsleft := 45, profile := 1 } =
      { temp := some 105, temp_units := "F", minutes_remain := 3,
        seconds_remain := 45, active := true } :=
  ⟨fun _ => rfl, by decide⟩

/-- C7 (counterexample): invoking `turn_on` directly on the base type does
not fail with an UnsupportedOperationError — it returns normally and arms
the Transition Smoother, refuting "every placeholder operation … fails
loudly" for the `turn_on`/`turn_off` members of the enumerated surface. -/
theorem c7_counterexample_base_turn_on_succeeds :
    (Steamist.async_turn_on_steam (Steamist.init "127.0.0.1") 0).result = .ok () ∧
    (Steamist.async_turn_on_steam (Steamist.init "127.0.0.1") 0).result ≠
      .error .unsupportedOperation :=
  ⟨rfl, fun h => Except.noConfusion h⟩

/-- C7 (amended): of the public surface of the base type, the placeholder
operations `get_status` and `model` fail loudly with an
UnsupportedOperationError (`NotImplementedError`) when invoked directly on
the base type, while `turn_on`/`turn_off` are fully implemented there: they
succeed and arm the Transition Smoother. -/
theorem c7_base_placeholders_fail_loudly (s : SteamistState) (now : ℚ) :
    Steamist.async_get_status = .error .unsupportedOperation ∧
    Steamist.model = .error .unsupportedOperation ∧
    Steamist.async_turn_on_steam s now =
      { state := setTransition s true now, requests := [], result := .ok () } ∧
    Steamist.async_turn_off_steam s now =
      { state := setTransition s false now, requests := [], result := .ok () } :=
  ⟨rfl, rfl, rfl, rfl⟩

/-- C8: after any sequence of `turn_on`/`turn_off` smoother-arming commands,
the pending state and expiry equal those set by the most recent command
alone: each `_async_set_transition` overwrites both fields entirely. -/
theorem c8_last_command_wins (s : SteamistState) (cmds : List (Bool × ℚ))
    (b : Bool) (t : ℚ) :
    (applyCommands s (cmds ++ [(b, t)])).transiton_state = b ∧
    (applyCommands s (cmds ++ [(b, t)])).transition_complete_time = t + 10 ∧
    applyCommands s (cmds ++ [(b, t)]) =
      setTransition (applyCommands s cmds) b t := by
  rw [applyCommands_append]
  exact ⟨rfl, rfl, rfl⟩

/-- C9: the `turn_on`/`turn_off` operations of the discovery (550) adapter issue no network
request at all; they set only the pending state of the Transition Smoother and
expiry, leaving host and timeout (and everything else) unchanged. -/
theorem c9_discovery_turn_is_local (s : SteamistState) (now : ℚ) :
    SteamistModel550.async_turn_on_steam s now =
      { state := { s with transiton_state := true,
                          transition_complete_time := now + 10 },
        requests := [], result := .ok () } ∧
    SteamistModel550.async_turn_off_steam s now =
      { state := { s with transiton_state := false,
                          transition_complete_time := now + 10 },
        requests := [], result := .ok () } ∧
    (SteamistModel550.async_turn_on_steam s now).requests = [] ∧
    (SteamistModel550.async_turn_on_steam s now).state.host = s.host ∧
    (SteamistModel550.async_turn_on_steam s now).state.timeout = s.timeout ∧
    (SteamistModel550.async_turn_off_steam s now).requests = [] ∧
    (SteamistModel550.async_turn_off_steam s now).state.host = s.host ∧
    (SteamistModel550.async_turn_off_steam s now).state.timeout = s.timeout :=
  ⟨rfl, rfl, rfl, rfl, rfl, rfl, rfl, rfl⟩

/-- C6: the factory returns the discovery (550) adapter, whose `model()`
equals the 550 constant, exactly when the model string equals that constant,
and returns the HTTP/XML (450) adapter for every other string (the 450
constant, being distinct from the 550 constant, included). -/
theorem c6_factory_dispatch (host m : String) :
    (m = SteamistModel550.model →
      Steamist.create_steamist_from host m = .model550 (Steamist.init host) ∧
      (Steamist.create_steamist_from host m).model = MODEL_550) ∧
    (m ≠ SteamistModel550.model →
      Steamist.create_steamist_from host m = .model450 (Steamist.init host)) ∧
    MODEL_450 ≠ MODEL_550 := by
  refine ⟨fun h => ?_, fun h => ?_, by decide⟩
  · rw [Steamist.create_steamist_from, if_pos h]
    exact ⟨rfl, rfl⟩
  · rw [Steamist.create_steamist_from, if_neg h]

/-- Witness for C6 at concrete inputs: the 550 constant selects the 550
adapter with the right `model()`, the 450 constant and an arbitrary string
select the 450 adapter. -/
theorem c6_factory_dispatch_witness :
    Steamist.create_steamist_from "192.168.1.10" MODEL_550 =
      .model550 (Steamist.init "192.168.1.10") ∧
    (Steamist.create_steamist_from "192.168.1.10" MODEL_550).model = MODEL_550 ∧
    Steamist.create_steamist_from "192.168.1.10" MODEL_450 =
      .model450 (Steamist.init "192.168.1.10") ∧
    Steamist.create_steamist_from "192.168.1.10" "unknown-model" =
      .model450 (Steamist.init "192.168.1.10") := by
  obtain ⟨h550, _, _⟩ := c6_factory_dispatch "192.168.1.10" MODEL_550
  obtain ⟨h1, h2⟩ := h550 rfl
  exact ⟨h1, h2,
    (c6_factory_dispatch "192.168.1.10" MODEL_450).2.1 (by decide),
    (c6_factory_dispatch "192.168.1.10" "unknown-model").2.1 (by decide)⟩

/-- C2 (code bug): on a `temp0` matching neither temperature pattern the
450 `get_status` does not raise a ParseError — it returns a status whose
`temp` is `None` and whose `temp_units` silently defaults to `"F"`. -/
theorem c2_unmatched_temp_returns_none :
    SteamistModel450.async_get_status (Steamist.init "127.0.0.1") 0
        { temp0 := "ABC", time0 := "5" } =
      .ok { temp := none, temp_units := "F", minutes_remain := 5,
            seconds_remain := 0, active := true } := by
  simp [SteamistModel450.async_get_status, Steamist.init, intOfDecimal,
    natOfDigits, extractTemp, reMatchTemp, digitSpan, NEVER_TIME]

/-- C10: the `turn_on`/`turn_off` operations of the 450 arm the Transition Smoother only
after the `leds.cgi` GET completes; when the request raises, the exception
propagates and the pending state and expiry of the smoother (the whole instance
state) are unchanged. -/
theorem c10_smoother_armed_after_request
    (net : NetRequest → Except SteamistError String) (s : SteamistState)
    (now : ℚ) :
    (∀ e, net (ledRequest s STEAM_ON_LED) = .error e →
      SteamistModel450.async_turn_on_steam net s now =
        { state := s, requests := [ledRequest s STEAM_ON_LED],
          result := .error e }) ∧
    (∀ r, net (ledRequest s STEAM_ON_LED) = .ok r →
      SteamistModel450.async_turn_on_steam net s now =
        { state := setTransition s true now,
          requests := [ledRequest s STEAM_ON_LED], result := .ok () }) ∧
    (∀ e, net (ledRequest s STEAM_OFF_LED) = .error e →
      SteamistModel450.async_turn_off_steam net s now =
        { state := s, requests := [ledRequest s STEAM_OFF_LED],
          result := .error e }) ∧
    (∀ r, net (ledRequest s STEAM_OFF_LED) = .ok r →
      SteamistModel450.async_turn_off_steam net s now =
        { state := setTransition s false now,
          requests := [ledRequest s STEAM_OFF_LED], result := .ok () }) := by
  refine ⟨fun e he => ?_, fun r hr => ?_, fun e he => ?_, fun r hr => ?_⟩
  · simp [SteamistModel450.async_turn_on_steam, he]
  · simp [SteamistModel450.async_turn_on_steam, hr]
  · simp [SteamistModel450.async_turn_off_steam, he]
  · simp [SteamistModel450.async_turn_off_steam, hr]

/-- Witness for C10: with an oracle that always fails with a NetworkError,
`turn_on` on the 450 propagates the error and leaves the freshly
constructed instance state unchanged. -/
theorem c10_smoother_armed_after_request_witness :
    SteamistModel450.async_turn_on_steam (fun _ => .error .networkError)
        (Steamist.init "127.0.0.1") 0 =
      { state := Steamist.init "127.0.0.1"
        requests := [ledRequest (Steamist.init "127.0.0.1") STEAM_ON_LED]
        result := .error .networkError } :=
  (c10_smoother_armed_after_request (fun _ => .error .networkError)
    (Steamist.init "127.0.0.1") 0).1 .networkError rfl

/-- C1: on the HTTP/XML (450) adapter, a `get_status` within 10 seconds of a
`turn_on` (`b = true`) or `turn_off` (`b = false`) — i.e. of the
`_async_set_transition` those commands perform at time `t` — reports
`active = b` regardless of the polled `time0`; once the window has expired
it reports `active = (minutes_remain > 0)`. -/
theorem c1_smoothing_overrides_polled (s : SteamistState) (b : Bool) (t now : ℚ)
    (resp : XmlResponse) (status : SteamistStatus)
    (h : SteamistModel450.async_get_status (setTransition s b t) now resp =
      .ok status) :
    (now < t + 10 → status.active = b) ∧
    (t + 10 ≤ now → ∀ m, intOfDecimal resp.time0 = some m →
      status.active = decide (0 < m)) := by
  unfold SteamistModel450.async_get_status at h
  cases hm : intOfDecimal resp.time0 with
  | none => rw [hm] at h; exact absurd h (by simp)
  | some m0 =>
    rw [hm] at h
    simp only [setTransition] at h
    have hs := Except.ok.inj h
    constructor
    · intro hlt
      rw [← hs]
      simp only []
      rw [if_pos hlt]
    · intro hge m hm2
      injection hm2 with hm2
      subst hm2
      rw [← hs]
      simp only []
      rw [if_neg (not_lt.mpr hge)]

/-- Witness for C1: 5 seconds after a `turn_on` at time 0, `get_status`
with polled `time0 = "0"` still reports `active = true`. -/
theorem c1_smoothing_overrides_polled_witness :
    ((5 : ℚ) < 0 + 10) ∧
    SteamistModel450.async_get_status
        (setTransition (Steamist.init "127.0.0.1") true 0) 5
        { temp0 := "70XF", time0 := "0" } =
      .ok { temp := some 70, temp_units := "F", minutes_remain := 0,
            seconds_remain := 0, active := true } ∧
    ({ temp := some 70, temp_units := "F", minutes_remain := 0,
       seconds_remain := 0, active := true } : SteamistStatus).active = true := by
  have heval : SteamistModel450.async_get_status
      (setTransition (Steamist.init "127.0.0.1") true 0) 5
      { temp0 := "70XF", time0 := "0" } =
      .ok { temp := some 70, temp_units := "F", minutes_remain := 0,
            seconds_remain := 0, active := true } := by
    simp [SteamistModel450.async_get_status, Steamist.init, setTransition,
      intOfDecimal, natOfDigits, extractTemp, reMatchTemp, digitSpan]
    norm_num
  exact ⟨by norm_num, heval,
    (c1_smoothing_overrides_polled (Steamist.init "127.0.0.1") true 0 5 _ _
      heval).1 (by norm_num)⟩

/-- C4: on a `temp0` of the form `<digits>XF…` the 450 `get_status`
returns the digits parsed as an integer with `temp_units = "F"`; on
`<digits>XC…` it returns them with `temp_units = "C"`; the Celsius pattern
never matches a Fahrenheit string (so trying Fahrenheit first is what makes
the `"F"` outcome, and the "XC but not XF" side condition of the claim is
automatic). -/
theorem c4_temp_pattern_extraction (s : SteamistState) (now : ℚ)
    (d rest : List Char) (time0 : String) (m : Int)
    (hne : d ≠ []) (hd : d.all Char.isDigit)
    (ht : intOfDecimal time0 = some m) :
    SteamistModel450.async_get_status s now ⟨⟨d ++ 'X' :: 'F' :: rest⟩, time0⟩ =
      .ok { temp := some ((natOfDigits d : Int)), temp_units := "F",
            minutes_remain := m, seconds_remain := 0,
            active := if s.transition_complete_time > now then s.transiton_state
                      else decide (0 < m) } ∧
    SteamistModel450.async_get_status s now ⟨⟨d ++ 'X' :: 'C' :: rest⟩, time0⟩ =
      .ok { temp := some ((natOfDigits d : Int)), temp_units := "C",
            minutes_remain := m, seconds_remain := 0,
            active := if s.transition_complete_time > now then s.transiton_state
                      else decide (0 < m) } ∧
    reMatchTemp 'C' (d ++ 'X' :: 'F' :: rest) = none := by
  refine ⟨?_, ?_, ?_⟩
  · unfold SteamistModel450.async_get_status
    simp only [ht, extractTemp_XF d rest hne hd]
  · unfold SteamistModel450.async_get_status
    simp only [ht, extractTemp_XC d rest hne hd]
  · rw [reMatchTemp_eq 'C' 'F' d rest hne hd]
    simp

/-- Witness for C4: `temp0 = "70XF"` yields `temp = 70, temp_units = "F"`
and `temp0 = "70XC"` yields `temp = 70, temp_units = "C"`. -/
theorem c4_temp_pattern_extraction_witness :
    SteamistModel450.async_get_status (Steamist.init "127.0.0.1") 0
        ⟨⟨['7', '0'] ++ 'X' :: 'F' :: []⟩, "5"⟩ =
      .ok { temp := some 70, temp_units := "F", minutes_remain := 5,
            seconds_remain := 0, active := true } ∧
    SteamistModel450.async_get_status (Steamist.init "127.0.0.1") 0
        ⟨⟨['7', '0'] ++ 'X' :: 'C' :: []⟩, "5"⟩ =
      .ok { temp := some 70, temp_units := "C", minutes_remain := 5,
            seconds_remain := 0, active := true } := by
  have h := c4_temp_pattern_extraction (Steamist.init "127.0.0.1") 0
    ['7', '0'] [] "5" 5 (by decide) (by decide) (by decide)
  refine ⟨?_, ?_⟩
  · rw [h.1]
    norm_num [natOfDigits, Steamist.init, NEVER_TIME]
    decide
  · rw [h.2.1]
    norm_num [natOfDigits, Steamist.init, NEVER_TIME]
    decide

end Aiosteamist
